import Mathlib

/-!
Shallow embedding of the core process-driving and output-parsing code of
pythondialog (src/libs/dialog.py): the exit-status translator
(Dialog._wait_for_program_termination), the parent side of the process
launcher (Dialog._call_program), the gauge streaming channel
(Dialog.gauge_update / Dialog.gauge_stop), the help-output grammar parser
(Dialog._parse_help, Dialog._parse_quoted_string,
Dialog._split_shellstyle_arglist) and the dash-escaping helpers
(_dash_escape, _dash_escape_nf).

Python strings are modelled as lists of characters (PyStr), so that the
index-based scanning loops of the source translate directly.  Exceptions
are modelled by an error type carried in Except / Option results; the
distinct Python exception classes relevant to the specified behaviour are
distinct constructors.  Exception message strings are not modelled.
-/

/-- A Python str, modelled as a list of characters so that the source's
index-based loops translate directly. -/
abbrev PyStr := List Char

/-- The Python exceptions (and the built-in IndexError) that the embedded
code can raise.  Message payloads are not modelled. -/
inductive PyError where
  | pythonDialogBug
  | pythonDialogErrorBeforeExecInChildProcess
  | probablyPythonBug
  | dialogError
  | dialogTerminatedBySignal (sig : Int)
  | badPythonDialogUsage
  | indexError
  deriving DecidableEq, Repr

instance {ε α : Type} [DecidableEq ε] [DecidableEq α] : DecidableEq (Except ε α) :=
  fun a b =>
    match a, b with
    | .ok x, .ok y =>
        if h : x = y then isTrue (by rw [h]) else
          isFalse (by intro hc; cases hc; exact h rfl)
    | .ok _, .error _ => isFalse (by intro hc; cases hc)
    | .error _, .ok _ => isFalse (by intro hc; cases hc)
    | .error e, .error f =>
        if h : e = f then isTrue (by rw [h]) else
          isFalse (by intro hc; cases hc; exact h rfl)

/-- Scanning loop of Dialog._parse_quoted_string, operating on the suffix
of the string after the opening double quote.  The Bool flag is true right
after a backslash has been consumed (the next character is then taken
literally).  Returns the accumulated token (reversed accumulator) and the
remaining suffix after the closing double quote.

When the scan runs off the end of the string with no pending backslash,
the source then evaluates s[i] with i == len(s), which raises IndexError
(the PythonDialogBug raise guarded by s[i] != a double quote is
unreachable); a pending backslash at end-of-string raises PythonDialogBug
inside the loop. -/
def pqsLoop : PyStr → Bool → PyStr → Except PyError (PyStr × PyStr)
  | [], false, _ => .error .indexError
  | [], true, _ => .error .pythonDialogBug
  | c :: rest, false, acc =>
      if c = '"' then .ok (acc.reverse, rest)
      else if c = '\\' then pqsLoop rest true acc
      else pqsLoop rest false (c :: acc)
  | c :: rest, true, acc => pqsLoop rest false (c :: acc)

/-- Dialog._parse_quoted_string: parse a double-quote-delimited token of s
starting at index start; return the token contents (escapes removed) and
the index just past the closing quote. -/
def _parse_quoted_string (s : PyStr) (start : Nat) : Except PyError (PyStr × Nat) :=
  if start < s.length ∧ s.getD start ' ' = '"' then
    match pqsLoop (s.drop (start + 1)) false [] with
    | .error e => .error e
    | .ok (tok, rest) => .ok (tok, s.length - rest.length)
  else .error .pythonDialogBug

theorem pqsLoop_length_lt (l : PyStr) : ∀ (esc : Bool) (acc tok rest : PyStr),
    pqsLoop l esc acc = .ok (tok, rest) → rest.length < l.length := by
  induction l with
  | nil =>
      intro esc acc tok rest h
      cases esc <;> simp [pqsLoop] at h
  | cons c cs ih =>
      intro esc acc tok rest h
      cases esc with
      | true =>
          simp only [pqsLoop] at h
          have := ih false (c :: acc) tok rest h
          simp only [List.length_cons]
          omega
      | false =>
          simp only [pqsLoop] at h
          split at h
          · cases h
            simp only [List.length_cons]
            omega
          · split at h
            · have := ih true acc tok rest h
              simp only [List.length_cons]
              omega
            · have := ih false (c :: acc) tok rest h
              simp only [List.length_cons]
              omega

/-- Python str.split with separator a single space and maxsplit 1:
returns the part before the first space and, when a space was found,
the remainder after it. -/
def splitOnceSpace : PyStr → PyStr × Option PyStr
  | [] => ([], Option.none)
  | c :: rest =>
      if c = ' ' then ([], some rest)
      else
        let p := splitOnceSpace rest
        (c :: p.1, p.2)

theorem splitOnceSpace_some_length (l : PyStr) : ∀ (tok r : PyStr),
    splitOnceSpace l = (tok, some r) → r.length < l.length := by
  induction l with
  | nil => intro tok r h; simp [splitOnceSpace] at h
  | cons c cs ih =>
      intro tok r h
      simp only [splitOnceSpace] at h
      split at h
      · simp only [Prod.mk.injEq, Option.some.injEq] at h
        obtain ⟨-, h2⟩ := h
        subst h2
        simp only [List.length_cons]
        omega
      · obtain ⟨a, b, hab⟩ : ∃ a b, splitOnceSpace cs = (a, b) := ⟨_, _, rfl⟩
        rw [hab] at h
        simp only [Prod.mk.injEq] at h
        obtain ⟨-, h2⟩ := h
        subst h2
        have := ih a r hab
        simp only [List.length_cons]
        omega

/-- Whitespace characters stripped by Python str.rstrip (restricted to
the ASCII whitespace characters, which are the only ones the dialog
backend emits). -/
def isPySpace (c : Char) : Bool := c ∈ [' ', '\t', '\n', '\r', '\x0b', '\x0c']

/-- Python str.rstrip() with no argument. -/
def rstrip (s : PyStr) : PyStr := (s.reverse.dropWhile isPySpace).reverse

/-- Scanning loop of Dialog._split_shellstyle_arglist over the remaining
suffix of the (already right-stripped) string.  At a double quote the
quoted-token sub-parser is applied to the rest of the suffix (this is
_parse_quoted_string at the current index, expressed on the suffix); the
quoted token must be followed by a space or end-of-string.  A bare token
extends to the next space or end-of-string. -/
def ssaLoop (s : PyStr) (acc : List PyStr) : Except PyError (List PyStr) :=
  match s with
  | [] => .ok acc
  | c :: rest =>
      if c = '"' then
        match hq : pqsLoop rest false [] with
        | .error e => .error e
        | .ok (arg, rest2) =>
            match rest2 with
            | [] => .ok (acc ++ [arg])
            | d :: rest3 =>
                if d = ' ' then ssaLoop rest3 (acc ++ [arg])
                else .error .pythonDialogBug
      else
        match hp : splitOnceSpace (c :: rest) with
        | (tok, some r) => ssaLoop r (acc ++ [tok])
        | (tok, Option.none) => .ok (acc ++ [tok])
termination_by s.length
decreasing_by
  · have h1 := pqsLoop_length_lt rest false [] arg (d :: rest3) hq
    simp only [List.length_cons] at h1 ⊢
    omega
  · have h1 := splitOnceSpace_some_length (c :: rest) tok r hp
    simp only [List.length_cons] at h1 ⊢
    omega

/-- Dialog._split_shellstyle_arglist: split an argument list with
shell-style quoting performed by dialog. -/
def _split_shellstyle_arglist (s : PyStr) : Except PyError (List PyStr) :=
  ssaLoop (rstrip s) []

/-- The line-boundary characters of Python str.splitlines. -/
def isLineBoundary (c : Char) : Bool :=
  c ∈ ['\n', '\r', '\x0b', '\x0c', '\x1c', '\x1d', '\x1e', '\x85', '\u2028', '\u2029']

/-- Worker for splitlines: acc is the reversed current line.  A carriage
return immediately followed by a newline counts as a single boundary. -/
def splitlinesGo : List Char → List Char → List (List Char)
  | [], acc => [acc.reverse]
  | [c], acc =>
      if isLineBoundary c then [acc.reverse]
      else [(c :: acc).reverse]
  | c :: d :: rest, acc =>
      if c = '\r' then
        if d = '\n' then
          acc.reverse :: (if rest.isEmpty then [] else splitlinesGo rest [])
        else acc.reverse :: splitlinesGo (d :: rest) []
      else if isLineBoundary c then
        acc.reverse :: splitlinesGo (d :: rest) []
      else splitlinesGo (d :: rest) (c :: acc)

/-- Python str.splitlines(): split at line boundaries, not keeping them,
with no trailing empty line for a trailing boundary. -/
def splitlines (s : PyStr) : List PyStr :=
  match s with
  | [] => []
  | _ => splitlinesGo s []

example : splitlines "a\nb".toList = ["a".toList, "b".toList] := by decide
example : splitlines "a\r\nb\n".toList = ["a".toList, "b".toList] := by decide
example : splitlines "\n".toList = [[]] := by decide
example : splitlines [] = [] := by decide
theorem splitlinesGo_ne_nil : ∀ (l acc : List Char), splitlinesGo l acc ≠ [] := by
  intro l
  induction l with
  | nil => intro acc; simp [splitlinesGo]
  | cons c cs ih =>
      intro acc
      cases cs with
      | nil =>
          simp only [splitlinesGo]
          split <;> simp
      | cons d rest =>
          simp only [splitlinesGo]
          split
          · split <;> simp
          · split
            · simp
            · exact ih (c :: acc)

theorem splitlines_ne_nil (l : PyStr) (h : l ≠ []) : splitlines l ≠ [] := by
  cases l with
  | nil => exact absurd rfl h
  | cons c cs => exact splitlinesGo_ne_nil (c :: cs) []

theorem splitlinesGo_no_boundary : ∀ (l acc : List Char),
    (∀ c ∈ l, isLineBoundary c = false) →
    splitlinesGo l acc = [acc.reverse ++ l] := by
  intro l
  induction l with
  | nil => intro acc _; simp [splitlinesGo]
  | cons c cs ih =>
      intro acc hnb
      have hc : isLineBoundary c = false := hnb c (by simp)
      have hcr : ¬ (c = '\r') := by
        intro he
        rw [he] at hc
        exact absurd hc (by decide)
      cases cs with
      | nil => simp [splitlinesGo, hc]
      | cons d rest =>
          simp only [splitlinesGo, if_neg hcr, hc, Bool.false_eq_true,
            if_false]
          rw [ih (c :: acc) (fun x hx => hnb x (List.mem_cons_of_mem c hx))]
          simp

/-- For a non-empty string with no line-boundary characters, splitlines
yields that single line. -/
theorem splitlines_no_boundary (l : PyStr) (hne : l ≠ [])
    (hnb : ∀ c ∈ l, isLineBoundary c = false) : splitlines l = [l] := by
  cases l with
  | nil => exact absurd rfl hne
  | cons c cs =>
      show splitlinesGo (c :: cs) [] = [c :: cs]
      rw [splitlinesGo_no_boundary (c :: cs) [] hnb]
      simp

theorem splitOnceSpace_no_space : ∀ l : PyStr, ' ' ∉ l →
    splitOnceSpace l = (l, Option.none) := by
  intro l
  induction l with
  | nil => intro _; rfl
  | cons c cs ih =>
      intro hn
      have hc : ¬ (c = ' ') := fun he => hn (by rw [he]; exact List.mem_cons_self _ _)
      simp only [splitOnceSpace, if_neg hc]
      rw [ih (fun hm => hn (List.mem_cons_of_mem c hm))]

/-- The value shapes a help-output parse can produce: a plain string, the
Python value None, a pair of strings, or a string together with a list of
strings. -/
inductive HelpResult where
  | strres (s : PyStr)
  | nores
  | pair (a b : PyStr)
  | listres (a : PyStr) (rest : List PyStr)
  deriving DecidableEq, Repr

/-- Dialog._parse_help: parse the dialog help output from a widget.
help_status stands for the source's _help_status_on(kwargs);
raw_format, multival_on_single_line and multival are the keyword
arguments of the source method (default false). -/
def _parse_help (output : PyStr) (help_status raw_format multival_on_single_line
    multival : Bool) : Except PyError HelpResult :=
  let l := splitlines output
  if raw_format then
    if l.length > 1 then .error .pythonDialogBug
    else if l.length = 0 then .ok (.strres [])
    else .ok (.strres (l.headD []))
  else if l.isEmpty then .ok .nores
  else if ¬ ("HELP ".toList.isPrefixOf (l.headD [])) then .error .pythonDialogBug
  else
    let s := (l.headD []).drop 5
    if ¬ help_status then .ok (.strres s)
    else if multival then
      if multival_on_single_line then
        match _split_shellstyle_arglist s with
        | .error e => .error e
        | .ok [] => .error .pythonDialogBug
        | .ok (a :: rest) => .ok (.listres a rest)
      else .ok (.listres s l.tail)
    else
      if s.isEmpty then .error .pythonDialogBug
      else if s.headD ' ' ≠ '"' then
        match splitOnceSpace s with
        | (_, Option.none) => .error .pythonDialogBug
        | (a, some b) => .ok (.pair a b)
      else
        match _parse_quoted_string s 0 with
        | .error e => .error e
        | .ok (help_id, after_index) =>
            if ¬ (" ".toList.isPrefixOf (s.drop after_index)) then
              .error .pythonDialogBug
            else .ok (.pair help_id (s.drop (after_index + 1)))

example : _parse_help "HELP \"tag one\" active".toList true false false false
    = .ok (.pair "tag one".toList "active".toList) := by decide
example : _parse_help "HELP id status text".toList true false false false
    = .ok (.pair "id".toList "status text".toList) := by decide
example : _parse_help "HELP idonly".toList true false false false
    = .error .pythonDialogBug := by decide
example : _parse_help "HELP \"tag\"".toList true false false false
    = .error .pythonDialogBug := by decide
example : _parse_help [] true false false false = .ok .nores := by decide
example : _parse_help "junk".toList false false false false
    = .error .pythonDialogBug := by decide
example : _parse_help "HELP x\nrest".toList true false false true
    = .ok (.listres "x".toList ["rest".toList]) := by decide
example : _parse_help "one line".toList true true false false
    = .ok (.strres "one line".toList) := by decide
example : _parse_help "HELP payload".toList false false false false
    = .ok (.strres "payload".toList) := by decide

/-- High-level Dialog exit codes (class attributes Dialog.OK etc.). -/
def OK : String := "ok"

def CANCEL : String := "cancel"

def ESC : String := "esc"

def EXTRA : String := "extra"

def HELP : String := "help"

/-- Low-level dialog exit statuses (class attributes Dialog._DIALOG_*). -/
def _DIALOG_OK : Int := 0

def _DIALOG_CANCEL : Int := 1

def _DIALOG_ESC : Int := 2

def _DIALOG_ERROR : Int := 3

def _DIALOG_EXTRA : Int := 4

def _DIALOG_HELP : Int := 5

def _DIALOG_ITEM_HELP : Int := 6

def _lowlevel_exit_code_varnames : List String :=
  ["OK", "CANCEL", "ESC", "ERROR", "EXTRA", "HELP", "ITEM_HELP"]

/-- getattr(self, the name prefixed with the low-level marker): the
low-level exit status attached to a variable name. -/
def lowlevelExitCodeOf : String → Int
  | "OK" => _DIALOG_OK
  | "CANCEL" => _DIALOG_CANCEL
  | "ESC" => _DIALOG_ESC
  | "ERROR" => _DIALOG_ERROR
  | "EXTRA" => _DIALOG_EXTRA
  | "HELP" => _DIALOG_HELP
  | "ITEM_HELP" => _DIALOG_ITEM_HELP
  | _ => 0

/-- getattr(self, name): the high-level code attached to a variable name. -/
def hlCodeOf : String → String
  | "OK" => OK
  | "CANCEL" => CANCEL
  | "ESC" => ESC
  | "EXTRA" => EXTRA
  | "HELP" => HELP
  | _ => ""

/-- The mapping from low-level to high-level exit code built in
Dialog.__init__: every name of _lowlevel_exit_code_varnames contributes
its low-level status mapped to its high-level code, except that ERROR is
skipped and ITEM_HELP maps to HELP.  (The source builds a dict; the keys
produced are distinct, so an association list is equivalent.) -/
def _dialog_exit_code_ll_to_hl : List (Int × String) :=
  _lowlevel_exit_code_varnames.filterMap fun name =>
    let intcode := lowlevelExitCodeOf name
    if name = "ITEM_HELP" then some (intcode, HELP)
    else if name = "ERROR" then Option.none
    else some (intcode, hlCodeOf name)

/-- Decoded result of os.waitpid on the child: the child either exited
normally with a status (os.WIFEXITED / os.WEXITSTATUS) or was terminated
by a signal (os.WIFSIGNALED / os.WTERMSIG).  A stopped status cannot be
returned here because waitpid is called without WUNTRACED. -/
inductive ExitInfo where
  | exited (status : Int)
  | signaled (sig : Int)
  deriving DecidableEq, Repr

/-- Parent-side process/pipe operations, recorded as a trace in the order
the source performs them. -/
inductive PEvent where
  | pipeCreate (rfd wfd : Nat)
  | fork (pid : Nat)
  | readToEof (fd : Nat)
  | closeFd (fd : Nat)
  | waitpid (pid : Nat)
  | closeStdin
  | write (data : PyStr)
  | flush
  deriving DecidableEq, Repr

/-- Dialog._wait_for_program_termination.  The trace records the
parent-side operations in source order: the child's output is read to
end-of-stream from child_output_rfd and that descriptor is closed (by the
with-block over the file object), and only then is os.waitpid called.
child_output is the text the read collects and exit_info the decoded
waitpid status; the second component is the returned pair
(hl_exit_code, output) or the exception raised. -/
def _wait_for_program_termination (child_pid : Nat) (child_output_rfd : Nat)
    (child_output : PyStr) (exit_info : ExitInfo) :
    List PEvent × Except PyError (String × PyStr) :=
  ([.readToEof child_output_rfd, .closeFd child_output_rfd, .waitpid child_pid],
   match exit_info with
   | .signaled sig => .error (.dialogTerminatedBySignal sig)
   | .exited ll_exit_code =>
       if ll_exit_code = _DIALOG_ERROR then .error .dialogError
       else if ll_exit_code = 127 then
         .error .pythonDialogErrorBeforeExecInChildProcess
       else if ll_exit_code = 126 then .error .probablyPythonBug
       else
         match _dialog_exit_code_ll_to_hl.lookup ll_exit_code with
         | some hl_exit_code => .ok (hl_exit_code, child_output)
         | Option.none => .error .pythonDialogBug)

/-- Parent-process side of Dialog._call_program after argument assembly:
create the output-capture pipe, fork the child, close the write end of
the pipe in the parent, and return (child_pid, child_output_rfd).  The
trace records these operations in source order; the child's own
operations happen in the forked process and are not part of the parent
trace. -/
def _call_program (child_output_rfd child_output_wfd child_pid : Nat) :
    List PEvent × (Nat × Nat) :=
  ([.pipeCreate child_output_rfd child_output_wfd, .fork child_pid,
    .closeFd child_output_wfd],
   (child_pid, child_output_rfd))

/-- A dynamically typed Python value, as far as gauge_update inspects
one. -/
inductive PyVal where
  | int (n : Int)
  | bool (b : Bool)
  | str (s : PyStr)
  | noneVal
  deriving DecidableEq, Repr

/-- Python isinstance(v, int): true for int and for bool (bool is a
subclass of int). -/
def isinstanceInt : PyVal → Bool
  | .int _ => true
  | .bool _ => true
  | _ => false

/-- Python str() of a value, as used by string formatting. -/
def pyFormat : PyVal → PyStr
  | .int n => (toString n).toList
  | .bool b => (if b then "True" else "False").toList
  | .str s => s
  | .noneVal => "None".toList

/-- Dialog.gauge_update: after the isinstance check on percent, format
the record and write it to the gauge process's stdin channel, then flush.
The channel is modelled as the trace of operations performed on it; the
result pairs the channel state after the call with the exception raised,
if any. -/
def gauge_update (percent : PyVal) (text : PyStr) (update_text : Bool)
    (chan : List PEvent) : List PEvent × Option PyError :=
  if ¬ isinstanceInt percent then (chan, some .badPythonDialogUsage)
  else
    let gauge_data :=
      if update_text then
        "XXX\n".toList ++ pyFormat percent ++ "\n".toList ++ text
          ++ "\nXXX\n".toList
      else pyFormat percent ++ "\n".toList
    (chan ++ [.write gauge_data, .flush], Option.none)

/-- Dialog.gauge_stop: close the stdin pipe of the gauge process, then
defer to _wait_for_program_termination and return only the high-level
exit code, discarding the collected output text. -/
def gauge_stop (pid rfd : Nat) (child_output : PyStr) (exit_info : ExitInfo) :
    List PEvent × Except PyError String :=
  let w := _wait_for_program_termination pid rfd child_output exit_info
  (.closeStdin :: w.1,
   match w.2 with
   | .ok res => .ok res.1
   | .error e => .error e)

/-- The module-level function _dash_escape: return a new list where every
element starting with two ASCII hyphens is preceded by an inserted
element of two ASCII hyphens. -/
def _dash_escape : List PyStr → List PyStr
  | [] => []
  | arg :: rest =>
      (if "--".toList.isPrefixOf arg then ["--".toList, arg] else [arg])
        ++ _dash_escape rest

/-- The module-level function _dash_escape_nf: like _dash_escape but the
first element is kept unescaped; an empty sequence raises
PythonDialogBug. -/
def _dash_escape_nf (args : List PyStr) : Except PyError (List PyStr) :=
  match args with
  | [] => .error .pythonDialogBug
  | a :: rest => .ok (a :: _dash_escape rest)

example : _dash_escape_nf ["--yesno".toList, "--title".toList, "hi".toList]
    = .ok ["--yesno".toList, "--".toList, "--title".toList, "hi".toList] := by decide
example : (_wait_for_program_termination 5 7 "out".toList (.exited 6)).2
    = .ok ("help", "out".toList) := by decide
example : (_wait_for_program_termination 5 7 "out".toList (.exited 3)).2
    = .error .dialogError := by decide
example : (gauge_update (.int 42) "t".toList true []).1
    = [.write "XXX\n42\nt\nXXX\n".toList, .flush] := by decide

example : _parse_quoted_string "\"a b\" c".toList 0 = .ok ("a b".toList, 5) := by decide
example : _parse_quoted_string "\"a\\\"b\" r".toList 0 = .ok ("a\"b".toList, 6) := by decide
example : _parse_quoted_string "\"abc".toList 0 = .error .indexError := by decide
example : _parse_quoted_string "\"ab\\".toList 0 = .error .pythonDialogBug := by decide
example : _parse_quoted_string "x\"a\"".toList 0 = .error .pythonDialogBug := by decide

/-- C1: for each raw exit status in the fixed translation table (0, 1, 2,
4, 5, 6), a normal child exit with that status makes
_wait_for_program_termination return the pair of the corresponding
high-level code ("ok", "cancel", "esc", "extra", "help", "help") and the
collected output text; the two distinct raw statuses 5 and 6 both map to
"help". -/
theorem C1_exit_code_table (pid rfd : Nat) (out : PyStr) :
    (_wait_for_program_termination pid rfd out (.exited 0)).2 = .ok ("ok", out) ∧
    (_wait_for_program_termination pid rfd out (.exited 1)).2 = .ok ("cancel", out) ∧
    (_wait_for_program_termination pid rfd out (.exited 2)).2 = .ok ("esc", out) ∧
    (_wait_for_program_termination pid rfd out (.exited 4)).2 = .ok ("extra", out) ∧
    (_wait_for_program_termination pid rfd out (.exited 5)).2 = .ok ("help", out) ∧
    (_wait_for_program_termination pid rfd out (.exited 6)).2 = .ok ("help", out) ∧
    (5 : Int) ≠ 6 :=
  ⟨rfl, rfl, rfl, rfl, rfl, rfl, by decide⟩

/-- C2: a normal exit with reserved status 127 always raises
PythonDialogErrorBeforeExecInChildProcess and one with reserved status
126 always raises ProbablyPythonBug, whatever the collected output, so
neither reserved code ever reaches the translation table; and any normal
exit status that is neither the backend error status nor 126 nor 127 nor
a key of the table raises PythonDialogBug. -/
theorem C2_reserved_exit_codes (pid rfd : Nat) (out : PyStr) (n : Int) :
    (_wait_for_program_termination pid rfd out (.exited 127)).2
      = .error .pythonDialogErrorBeforeExecInChildProcess ∧
    (_wait_for_program_termination pid rfd out (.exited 126)).2
      = .error .probablyPythonBug ∧
    (n ≠ _DIALOG_ERROR → n ≠ 126 → n ≠ 127 →
      _dialog_exit_code_ll_to_hl.lookup n = Option.none →
      (_wait_for_program_termination pid rfd out (.exited n)).2
        = .error .pythonDialogBug) := by
  refine ⟨rfl, rfl, ?_⟩
  intro h3 h126 h127 hlk
  simp [_wait_for_program_termination, h3, h126, h127, hlk]

/-- Witness for C2 at the concrete unknown status 99. -/
theorem C2_reserved_exit_codes_witness :
    (_wait_for_program_termination 1 3 [] (.exited 99)).2
      = .error .pythonDialogBug :=
  (C2_reserved_exit_codes 1 3 [] 99).2.2 (by decide) (by decide) (by decide)
    (by decide)

/-- C3: evaluation of _parse_quoted_string on the three relevant input
shapes.  An unterminated quoted token makes the source evaluate s[i] with
i equal to len(s) after the scan loop, which raises IndexError rather
than the PythonDialogBug the claim states (the source's own raise for
that case is unreachable); a backslash as final character raises
PythonDialogBug as claimed; a well-formed token is returned with escapes
removed together with the index just past the closing quote. -/
theorem C3_parse_quoted_string_eval :
    _parse_quoted_string "\"abc".toList 0 = .error .indexError ∧
    _parse_quoted_string "\"ab\\".toList 0 = .error .pythonDialogBug ∧
    _parse_quoted_string "\"a\\\"b\" x".toList 0 = .ok ("a\"b".toList, 6) := by
  decide

/-- C9: for every percent value that is not a Python int, gauge_update
raises BadPythonDialogUsage and the input channel is left unchanged: no
write or flush is performed. -/
theorem C9_gauge_update_type_check (percent : PyVal) (text : PyStr)
    (update_text : Bool) (chan : List PEvent)
    (h : isinstanceInt percent = false) :
    gauge_update percent text update_text chan
      = (chan, some .badPythonDialogUsage) := by
  simp [gauge_update, h]

/-- Witness for C9 at a concrete non-integer percent. -/
theorem C9_gauge_update_type_check_witness :
    gauge_update (.str "50".toList) [] true []
      = ([], some .badPythonDialogUsage) :=
  C9_gauge_update_type_check (.str "50".toList) [] true [] rfl

/-- C6: for every integer percent, text and channel state, gauge_update
appends to the channel exactly one write of the formatted record followed
by one flush: the four-line block when update_text is true and the bare
percent record otherwise, and both records are newline-terminated. -/
theorem C6_gauge_update_records (n : Int) (text : PyStr) (chan : List PEvent) :
    gauge_update (.int n) text true chan
      = (chan ++ [.write ("XXX\n".toList ++ (toString n).toList ++ "\n".toList
          ++ text ++ "\nXXX\n".toList), .flush], Option.none) ∧
    gauge_update (.int n) text false chan
      = (chan ++ [.write ((toString n).toList ++ "\n".toList), .flush],
          Option.none) ∧
    (∃ r, "XXX\n".toList ++ (toString n).toList ++ "\n".toList ++ text
        ++ "\nXXX\n".toList = r ++ ['\n']) ∧
    (∃ r, (toString n).toList ++ "\n".toList = r ++ ['\n']) := by
  refine ⟨rfl, rfl,
    ⟨"XXX\n".toList ++ (toString n).toList ++ "\n".toList ++ text
      ++ "\nXXX".toList, by simp⟩,
    ⟨(toString n).toList, rfl⟩⟩

/-- C5 counterexample: with a clean backend exit (status 0) but a
non-empty collected output, gauge_stop returns the high-level code "ok"
and raises nothing, so non-empty output in this mode is NOT treated as an
internal-bug condition, contrary to the claim. -/
theorem C5_gauge_stop_counterexample :
    (gauge_stop 1 3 "unexpected".toList (.exited 0)).2 = .ok "ok" ∧
    ("unexpected".toList : PyStr) ≠ [] := by
  decide

/-- C5 amended: gauge_stop closes the session's input channel, performs
exactly one termination wait via _wait_for_program_termination, and
returns the resulting high-level exit code; the collected output text is
discarded without inspection, whether empty or not. -/
theorem C5_gauge_stop_amended (pid rfd : Nat) (out : PyStr) (ei : ExitInfo) :
    (gauge_stop pid rfd out ei).1
      = .closeStdin :: (_wait_for_program_termination pid rfd out ei).1 ∧
    ((gauge_stop pid rfd out ei).1.countP fun e =>
        match e with | .waitpid _ => true | _ => false) = 1 ∧
    (gauge_stop pid rfd out ei).2
      = (_wait_for_program_termination pid rfd out ei).2.map Prod.fst ∧
    (gauge_stop pid rfd out (.exited 0)).2 = .ok "ok" := by
  refine ⟨rfl, rfl, ?_, rfl⟩
  show (match (_wait_for_program_termination pid rfd out ei).2 with
    | .ok res => .ok res.1
    | .error e => .error e)
      = (_wait_for_program_termination pid rfd out ei).2.map Prod.fst
  cases (_wait_for_program_termination pid rfd out ei).2 <;> rfl

/-- C7: for every non-empty argument sequence, _dash_escape_nf returns
the first element unaltered followed by the escape of the remaining
elements, in which every element beginning with two hyphens is preceded
by an inserted two-hyphen element and every other element appears
unchanged, in order. -/
theorem C7_dash_escape_nf (args : List PyStr) (h : args ≠ []) :
    _dash_escape_nf args
      = .ok (args.headD [] ::
          (args.tail.flatMap fun a =>
            if "--".toList.isPrefixOf a then ["--".toList, a] else [a])) := by
  have hesc : ∀ l : List PyStr,
      _dash_escape l = l.flatMap fun a =>
        if "--".toList.isPrefixOf a then ["--".toList, a] else [a] := by
    intro l
    induction l with
    | nil => rfl
    | cons a rest ih => simp [_dash_escape, ih]
  match args with
  | a :: rest =>
      show Except.ok (a :: _dash_escape rest) = _
      rw [hesc rest]
      rfl

/-- Witness for C7 at a concrete argument vector. -/
theorem C7_dash_escape_nf_witness :
    _dash_escape_nf ["--yesno".toList, "--title".toList, "hi".toList]
      = .ok ["--yesno".toList, "--".toList, "--title".toList, "hi".toList] := by
  have := C7_dash_escape_nf ["--yesno".toList, "--title".toList, "hi".toList]
    (by decide)
  simpa using this

/-- C8: in every execution of _wait_for_program_termination the read to
end-of-stream and the close of the output pipe's read descriptor strictly
precede the waitpid call, and in _call_program the parent closes the
write end of the output pipe after forking and before returning the
handle (pid, rfd), so before any read attempt. -/
theorem C8_pipe_lifecycle_ordering (pid rfd wfd : Nat) (out : PyStr)
    (ei : ExitInfo) :
    (∃ pre post, (_wait_for_program_termination pid rfd out ei).1
        = pre ++ PEvent.waitpid pid :: post ∧
        PEvent.readToEof rfd ∈ pre ∧ PEvent.closeFd rfd ∈ pre) ∧
    (_call_program rfd wfd pid).1.getLast? = some (.closeFd wfd) ∧
    (_call_program rfd wfd pid).2 = (pid, rfd) :=
  ⟨⟨[.readToEof rfd, .closeFd rfd], [], rfl, by simp, by simp⟩, rfl, rfl⟩

/-- C4: with extended status on and a single-value widget, the payload
of a HELP-prefixed first line splits into exactly two fields: the
concrete payload with a quoted first field containing a space parses to
the expected pair, and any payload without a space delimiter after its
(possibly quoted) first field raises PythonDialogBug, both for an
unquoted first field (no space at all in the payload) and for a quoted
first field that is not followed by a space. -/
theorem C4_help_status_single_value :
    (_parse_help "HELP \"tag one\" active".toList true false false false
        = .ok (.pair "tag one".toList "active".toList)) ∧
    (∀ payload : PyStr,
      (∀ c ∈ payload, isLineBoundary c = false) →
      payload ≠ [] →
      payload.headD ' ' ≠ '"' →
      ' ' ∉ payload →
      _parse_help ("HELP ".toList ++ payload) true false false false
        = .error .pythonDialogBug) ∧
    (∀ (payload tok : PyStr) (i : Nat),
      (∀ c ∈ payload, isLineBoundary c = false) →
      payload.headD ' ' = '"' →
      _parse_quoted_string payload 0 = .ok (tok, i) →
      " ".toList.isPrefixOf (payload.drop i) = false →
      _parse_help ("HELP ".toList ++ payload) true false false false
        = .error .pythonDialogBug) := by
  have hhelp : ∀ payload : PyStr,
      (∀ c ∈ payload, isLineBoundary c = false) →
      splitlines ("HELP ".toList ++ payload) = ["HELP ".toList ++ payload] := by
    intro payload hnb
    refine splitlines_no_boundary _ (by simp) ?_
    intro c hc
    rcases List.mem_append.mp hc with h1 | h2
    · simp only [String.toList] at h1
      fin_cases h1 <;> decide
    · exact hnb c h2
  have hdrop : ∀ payload : PyStr,
      ("HELP ".toList ++ payload).drop 5 = payload := by
    intro payload
    exact List.drop_left' (by decide)
  have hpre : ∀ payload : PyStr,
      "HELP ".toList.isPrefixOf ("HELP ".toList ++ payload) = true := by
    intro payload
    simp
  refine ⟨by decide, ?_, ?_⟩
  · intro payload hnb hne hhd hnsp
    obtain ⟨p, ps, rfl⟩ := List.exists_cons_of_ne_nil hne
    simp only [List.headD_cons] at hhd
    simp only [_parse_help, hhelp _ hnb, List.headD_cons, hdrop, hpre]
    simp [hhd, splitOnceSpace_no_space _ hnsp]
  · intro payload tok i hnb hhd hpq hnsp
    have hne : payload ≠ [] := by
      intro he
      rw [he] at hhd
      exact absurd hhd (by decide)
    obtain ⟨p, ps, rfl⟩ := List.exists_cons_of_ne_nil hne
    simp only [List.headD_cons] at hhd
    subst hhd
    have hnsp' : ¬ ([' '] <+: List.drop i ('"' :: ps)) := by
      intro hc
      have hc2 : (" ".toList).isPrefixOf (List.drop i ('"' :: ps)) = true :=
        List.isPrefixOf_iff_prefix.mpr hc
      rw [hnsp] at hc2
      cases hc2
    simp only [_parse_help, hhelp _ hnb, List.headD_cons, hdrop, hpre]
    simp [hpq, hnsp']

/-- Witness for C4 at a quoted payload with nothing after the quoted
field. -/
theorem C4_help_status_single_value_witness :
    _parse_help "HELP \"tag\"".toList true false false false
      = .error .pythonDialogBug := by
  have h := C4_help_status_single_value.2.2 "\"tag\"".toList "tag".toList 5
    (by decide) (by decide) (by decide) (by decide)
  simpa using h

/-- C10: in prefixed (non-raw) mode, a completely empty output makes
_parse_help return None without raising, for every combination of the
remaining flags, while every non-empty output whose first line does not
begin with the HELP prefix raises PythonDialogBug. -/
theorem C10_parse_help_empty_output (hs m1 m2 : Bool) (output : PyStr) :
    _parse_help [] hs false m1 m2 = .ok .nores ∧
    (output ≠ [] →
      "HELP ".toList.isPrefixOf ((splitlines output).headD []) = false →
      _parse_help output hs false m1 m2 = .error .pythonDialogBug) := by
  constructor
  · rfl
  · intro hne hpre
    have hl : splitlines output ≠ [] := splitlines_ne_nil output hne
    obtain ⟨x, xs, hx⟩ := List.exists_cons_of_ne_nil hl
    rw [hx] at hpre
    simp only [List.headD_cons] at hpre
    have hpre' : ¬ (['H', 'E', 'L', 'P', ' '] <+: x) := by
      intro hc
      have hc2 : ("HELP ".toList).isPrefixOf x = true :=
        List.isPrefixOf_iff_prefix.mpr hc
      rw [hpre] at hc2
      cases hc2
    simp [_parse_help, hx, hpre']

/-- Witness for C10 at a concrete non-empty output without the HELP
prefix. -/
theorem C10_parse_help_empty_output_witness :
    _parse_help "junk".toList false false false false
      = .error .pythonDialogBug :=
  (C10_parse_help_empty_output false false false "junk".toList).2 (by decide)
    (by decide)
